import Mathlib

/-!
Verification development for the veasyo_fe realtime session and
request-lifecycle synchronization layer.

The definitions below are a shallow embedding of the TypeScript source:

* `RequestStateService` (src/unnamed/part_001, lines 101-143): a
  signal-held array of `ServiceRequest` with `addRequest`,
  `updateRequest`, `removeRequest`, `clearRequests` and the computed
  filtered views `pendingRequests` / `acknowledgedRequests`.
* `WaiterDashboardComponent.ngOnInit` (waiter-dashboard.component.ts,
  lines 85-101): the realtime `request_updated` handler, and
  `_loadExistingRequests` (lines 150-170): the REST snapshot reload.
* JavaScript arrays become `List`, JS strings become `String` (or
  `List Char` where character-level splitting matters), nullable
  fields become `Option`, and `Date.now()` timestamps become explicit
  `Int` parameters in milliseconds.
-/

namespace Veasyo

/-- ServiceRequest entity (models/subscription.model.ts, lines 309-320).
`Date`-valued timestamps are carried as epoch milliseconds; the store
operations modelled here never inspect them. -/
structure ServiceRequest where
  id : String
  tenantId : String
  tableId : String
  requestType : String
  status : String
  customNote : Option String
  timestampCreated : Int
  timestampAcknowledged : Option Int
  timestampCompleted : Option Int
  acknowledgedBy : Option String
  completedBy : Option String
  deriving DecidableEq, Repr

/-- RequestStateService.addRequest: `[...requests, request]` (part_001
line 123) — an unconditional append, with no key-based dedup. -/
def addRequest (request : ServiceRequest) (requests : List ServiceRequest) :
    List ServiceRequest :=
  requests ++ [request]

/-- RequestStateService.updateRequest: `requests.map((r) => (r.id ===
updatedRequest.id ? updatedRequest : r))` (part_001 lines 126-130). -/
def updateRequest (updatedRequest : ServiceRequest) (requests : List ServiceRequest) :
    List ServiceRequest :=
  requests.map fun r => if r.id = updatedRequest.id then updatedRequest else r

/-- RequestStateService.removeRequest: `requests.filter((r) => r.id !==
requestId)` (part_001 lines 132-134). -/
def removeRequest (requestId : String) (requests : List ServiceRequest) :
    List ServiceRequest :=
  requests.filter fun r => r.id ≠ requestId

/-- RequestStateService.clearRequests: `this._requestsSignal.set([])`
(part_001 lines 136-138). -/
def clearRequests : List ServiceRequest := []

/-- Computed view: `requests.filter((r) => r.status === "pending")`
(part_001 lines 109-111). -/
def pendingRequests (requests : List ServiceRequest) : List ServiceRequest :=
  requests.filter fun r => r.status = "pending"

/-- Computed view: `requests.filter((r) => r.status === "acknowledged")`
(part_001 lines 113-115). -/
def acknowledgedRequests (requests : List ServiceRequest) : List ServiceRequest :=
  requests.filter fun r => r.status = "acknowledged"

/-- Computed view: `requests.filter((r) => r.status === "completed")`
(part_001 lines 117-119). -/
def completedRequests (requests : List ServiceRequest) : List ServiceRequest :=
  requests.filter fun r => r.status = "completed"

/-- The waiter dashboard's `request_updated` subscription
(waiter-dashboard.component.ts lines 86-100): a cancelled or completed
update removes the entity, any other status goes through
`updateRequest`. -/
def handleRequestUpdated (updatedRequest : ServiceRequest)
    (requests : List ServiceRequest) : List ServiceRequest :=
  if updatedRequest.status = "cancelled" ∨ updatedRequest.status = "completed" then
    removeRequest updatedRequest.id requests
  else
    updateRequest updatedRequest requests

/-- WaiterDashboardComponent._loadExistingRequests success path
(waiter-dashboard.component.ts lines 153-158): `clearRequests()` then
`requests.forEach((request) => addRequest(request))`. The prior store
contents are the second argument and are discarded by the clear. -/
def reconcileSnapshot (snapshot : List ServiceRequest)
    (_requests : List ServiceRequest) : List ServiceRequest :=
  snapshot.foldl (fun acc request => addRequest request acc) clearRequests

/-- One store mutation, as driven by the realtime handlers and the
snapshot reload in waiter-dashboard.component.ts. -/
inductive StoreOp where
  | add (request : ServiceRequest)
  | update (request : ServiceRequest)
  | remove (requestId : String)
  | clear
  | snapshot (requests : List ServiceRequest)
  deriving Repr

/-- Apply one store operation to the current collection. -/
def applyOp (requests : List ServiceRequest) : StoreOp → List ServiceRequest
  | .add r => addRequest r requests
  | .update r => updateRequest r requests
  | .remove i => removeRequest i requests
  | .clear => clearRequests
  | .snapshot s => reconcileSnapshot s requests

/-- Apply a sequence of store operations left to right. -/
def applyOps (requests : List ServiceRequest) (ops : List StoreOp) :
    List ServiceRequest :=
  ops.foldl applyOp requests

/-- The id column of the collection. -/
def ids (requests : List ServiceRequest) : List String :=
  requests.map (·.id)

/-- The collection has no two entries with the same id. -/
def noDupIds (requests : List ServiceRequest) : Prop :=
  (ids requests).Nodup

/-- Freshness discipline on an operation sequence: every `add` carries
an id not currently in the collection, and every snapshot is itself
duplicate-free. -/
def freshOps : List ServiceRequest → List StoreOp → Bool
  | _, [] => true
  | s, op :: rest =>
    (match op with
     | .add r => decide (r.id ∉ ids s)
     | .snapshot snap => decide ((ids snap).Nodup)
     | _ => true) && freshOps (applyOp s op) rest

/-- A concrete request used in concrete evaluations. -/
def sampleRequest (i : String) (st : String) : ServiceRequest :=
  { id := i, tenantId := "t1", tableId := "tbl1", requestType := "call_waiter",
    status := st, customNote := none, timestampCreated := 0,
    timestampAcknowledged := none, timestampCompleted := none,
    acknowledgedBy := none, completedBy := none }

theorem ids_addRequest (r : ServiceRequest) (s : List ServiceRequest) :
    ids (addRequest r s) = ids s ++ [r.id] := by
  simp [ids, addRequest]

theorem ids_updateRequest (u : ServiceRequest) (s : List ServiceRequest) :
    ids (updateRequest u s) = ids s := by
  induction s with
  | nil => rfl
  | cons r rest ih =>
    by_cases h : r.id = u.id <;>
      simp [ids, updateRequest, h] at ih ⊢ <;> exact ih

theorem ids_removeRequest_sublist (i : String) (s : List ServiceRequest) :
    (ids (removeRequest i s)).Sublist (ids s) := by
  simp only [ids, removeRequest]
  exact (List.filter_sublist s).map (·.id)

theorem not_mem_ids_removeRequest (i : String) (s : List ServiceRequest) :
    i ∉ ids (removeRequest i s) := by
  simp only [ids, removeRequest, List.mem_map, List.mem_filter]
  rintro ⟨r, ⟨-, hne⟩, hid⟩
  simp only [decide_eq_true_eq] at hne
  exact hne hid

theorem foldl_addRequest (snap acc : List ServiceRequest) :
    snap.foldl (fun requests r => addRequest r requests) acc = acc ++ snap := by
  induction snap generalizing acc with
  | nil => simp
  | cons r rest ih =>
    simp only [List.foldl_cons, addRequest] at *
    rw [ih]
    simp

theorem reconcileSnapshot_eq (snap prior : List ServiceRequest) :
    reconcileSnapshot snap prior = snap := by
  simp [reconcileSnapshot, clearRequests, foldl_addRequest]

theorem nodup_addRequest (r : ServiceRequest) (s : List ServiceRequest)
    (hs : noDupIds s) (hr : r.id ∉ ids s) : noDupIds (addRequest r s) := by
  simp only [noDupIds, ids_addRequest, List.nodup_append]
  exact ⟨hs, List.nodup_singleton _, by simpa [List.disjoint_left] using hr⟩

theorem nodup_removeRequest (i : String) (s : List ServiceRequest)
    (hs : noDupIds s) : noDupIds (removeRequest i s) :=
  (ids_removeRequest_sublist i s).nodup hs

/-- C9: updateRequest with an id that is not in the collection leaves the
collection completely unchanged — it is a map-in-place replacement, not
an insert, so a request_updated event for an unknown non-terminal
request is silently dropped. -/
theorem C9_update_unknown_id (u : ServiceRequest) (s : List ServiceRequest)
    (h : ∀ r ∈ s, r.id ≠ u.id) : updateRequest u s = s := by
  induction s with
  | nil => rfl
  | cons r rest ih =>
    have hr : r.id ≠ u.id := h r (List.mem_cons_self r rest)
    simp only [updateRequest, List.map_cons, if_neg hr]
    have := ih fun x hx => h x (List.mem_cons_of_mem r hx)
    simpa [updateRequest] using this

/-- Witness for C9 at a concrete store of one request and an update for a
different id. -/
theorem C9_witness :
    updateRequest (sampleRequest "r2" "pending") [sampleRequest "r1" "pending"]
      = [sampleRequest "r1" "pending"] :=
  C9_update_unknown_id (sampleRequest "r2" "pending") [sampleRequest "r1" "pending"]
    (by decide)

/-- C4: snapshot reconciliation (clear, then add every request of the
snapshot) is idempotent: applying it twice with the same snapshot equals
applying it once; indeed either way the collection becomes exactly the
snapshot. -/
theorem C4_reconcile_idempotent (snap prior : List ServiceRequest) :
    reconcileSnapshot snap (reconcileSnapshot snap prior)
        = reconcileSnapshot snap prior ∧
      reconcileSnapshot snap prior = snap := by
  constructor
  · rfl
  · exact reconcileSnapshot_eq snap prior

/-- C2 counterexample: a request_updated event with non-terminal status
"pending" for an id absent from the store does NOT upsert the entity:
on the empty store the handler leaves the store empty, so the claimed
"all other statuses upsert" fails at this input. -/
theorem C2_counterexample :
    handleRequestUpdated (sampleRequest "r1" "pending") [] = [] ∧
      (sampleRequest "r1" "pending") ∉
        handleRequestUpdated (sampleRequest "r1" "pending") [] := by
  refine ⟨rfl, ?_⟩
  intro h
  rw [show handleRequestUpdated (sampleRequest "r1" "pending") [] = [] from rfl] at h
  exact List.not_mem_nil _ h

/-- C2 (amended): a request_updated event with status completed or
cancelled removes the entity, so its id is absent from the live pending
and acknowledged views immediately after processing; an event with any
other status is applied through updateRequest, which replaces the entity
in place when the id is present and leaves the store unchanged when it
is absent (it does not insert). -/
theorem C2_terminal_removal (u : ServiceRequest) (s : List ServiceRequest) :
    (u.status = "completed" ∨ u.status = "cancelled" →
      u.id ∉ ids (pendingRequests (handleRequestUpdated u s)) ∧
      u.id ∉ ids (acknowledgedRequests (handleRequestUpdated u s))) ∧
    (u.status ≠ "completed" → u.status ≠ "cancelled" →
      handleRequestUpdated u s = updateRequest u s) := by
  constructor
  · intro hterm
    have hrem : handleRequestUpdated u s = removeRequest u.id s := by
      unfold handleRequestUpdated
      rw [if_pos hterm.symm]
    rw [hrem]
    constructor
    · intro hmem
      apply not_mem_ids_removeRequest u.id s
      simp only [ids, pendingRequests, List.mem_map, List.mem_filter] at hmem ⊢
      obtain ⟨r, ⟨hr, -⟩, hid⟩ := hmem
      exact ⟨r, hr, hid⟩
    · intro hmem
      apply not_mem_ids_removeRequest u.id s
      simp only [ids, acknowledgedRequests, List.mem_map, List.mem_filter] at hmem ⊢
      obtain ⟨r, ⟨hr, -⟩, hid⟩ := hmem
      exact ⟨r, hr, hid⟩
  · intro h1 h2
    unfold handleRequestUpdated
    rw [if_neg]
    rintro (hc | hc)
    · exact h2 hc
    · exact h1 hc

/-- Witness for C2 at a concrete completed update over a one-element
store. -/
theorem C2_witness :
    (sampleRequest "r1" "completed").id ∉
        ids (pendingRequests (handleRequestUpdated (sampleRequest "r1" "completed")
          [sampleRequest "r1" "acknowledged"])) ∧
      (sampleRequest "r1" "completed").id ∉
        ids (acknowledgedRequests (handleRequestUpdated (sampleRequest "r1" "completed")
          [sampleRequest "r1" "acknowledged"])) :=
  (C2_terminal_removal (sampleRequest "r1" "completed")
    [sampleRequest "r1" "acknowledged"]).1 (Or.inl rfl)

/-- C3 counterexample: addRequest is an unconditional append, so adding
the same request twice (e.g. a duplicated new_request delivery) yields a
collection with two entries sharing one id, refuting the claimed
invariant over all operation sequences. -/
theorem C3_counterexample :
    ¬ noDupIds (applyOps []
      [.add (sampleRequest "r1" "pending"), .add (sampleRequest "r1" "pending")]) := by
  intro h
  simp [noDupIds, applyOps, applyOp, addRequest, ids, List.foldl] at h

/-- C3 (amended): the collection stays duplicate-free across any sequence
of store operations provided every addRequest (including the adds issued
by a snapshot reload) carries an id not currently present and every
snapshot list is itself duplicate-free; updateRequest, removeRequest and
clearRequests preserve uniqueness unconditionally. addRequest itself
performs no dedup, so an add with an already-present id creates a
duplicate. -/
theorem C3_no_duplicate_ids (ops : List StoreOp) (s : List ServiceRequest)
    (h1 : noDupIds s) (h2 : freshOps s ops = true) :
    noDupIds (applyOps s ops) := by
  induction ops generalizing s with
  | nil => exact h1
  | cons op rest ih =>
    simp only [freshOps, Bool.and_eq_true] at h2
    obtain ⟨hop, hrest⟩ := h2
    have hnext : noDupIds (applyOp s op) := by
      cases op with
      | add r =>
        simp only [decide_eq_true_eq] at hop
        exact nodup_addRequest r s h1 hop
      | update r =>
        simpa [noDupIds, applyOp, ids_updateRequest] using h1
      | remove i => exact nodup_removeRequest i s h1
      | clear => simp [noDupIds, applyOp, clearRequests, ids]
      | snapshot snap =>
        simp only [decide_eq_true_eq] at hop
        simpa [noDupIds, applyOp, reconcileSnapshot_eq] using hop
    simpa [applyOps, List.foldl] using ih (applyOp s op) hnext hrest

/-- Witness for C3 on a concrete fresh sequence. -/
theorem C3_witness :
    noDupIds (applyOps []
      [.add (sampleRequest "r1" "pending"),
       .add (sampleRequest "r2" "pending"),
       .update (sampleRequest "r1" "acknowledged"),
       .remove "r2",
       .snapshot [sampleRequest "r3" "pending"]]) :=
  C3_no_duplicate_ids _ [] (by simp [noDupIds, ids]) (by decide)

/-! ### CustomerStateService (rate-limit.service.ts, lines 148-331)

The service holds six signals (the in-memory state) and mirrors them
into one sessionStorage record. `_loadState` runs once at startup.
JavaScript truthiness is modelled explicitly: `null` and `""` are falsy
for the string fields, `null` and `0` for the numeric timestamp. -/

/-- CustomerState record shape (rate-limit.service.ts lines 148-155). -/
structure CustomerState where
  tableId : Option String
  currentRequestId : Option String
  requestStatus : String
  requestType : Option String
  customNote : Option String
  timestamp : Option Int
  deriving DecidableEq, Repr

/-- Initial signal values (rate-limit.service.ts lines 167-172). -/
def initialCustomerState : CustomerState :=
  { tableId := none, currentRequestId := none, requestStatus := "",
    requestType := none, customNote := none, timestamp := none }

/-- In-memory signals plus the persisted sessionStorage record (the
value under the key waiter_customer_state, none when absent). -/
structure CustomerStore where
  mem : CustomerState
  storage : Option CustomerState
  deriving DecidableEq, Repr

/-- STATE_EXPIRY_MS = 30 * 60 * 1000 (rate-limit.service.ts line 162). -/
def STATE_EXPIRY_MS : Int := 30 * 60 * 1000

/-- JavaScript truthiness for a nullable string: null and "" are falsy. -/
def truthyOptStr : Option String → Bool
  | some s => s ≠ ""
  | none => false

/-- JavaScript truthiness for a nullable number: null and 0 are falsy. -/
def truthyOptInt : Option Int → Bool
  | some t => t ≠ 0
  | none => false

/-- The signal resets performed by clearRequestState (rate-limit.service.ts
lines 274-278): the request signals are reset, the table id is kept. -/
def clearRequestSignals (mem : CustomerState) : CustomerState :=
  { mem with
    currentRequestId := none
    requestStatus := ""
    requestType := none
    customNote := none
    timestamp := none }

/-- clearRequestState (rate-limit.service.ts lines 273-285): resets the
request signals (the table id is preserved) and removes the persisted
record. -/
def clearRequestState (st : CustomerStore) : CustomerStore :=
  { mem := clearRequestSignals st.mem, storage := none }

/-- The hydration block of _loadState (rate-limit.service.ts lines
227-232): each signal is set only when the persisted field is truthy. -/
def hydrate (mem state : CustomerState) : CustomerState :=
  { tableId := if truthyOptStr state.tableId then state.tableId else mem.tableId,
    currentRequestId :=
      if truthyOptStr state.currentRequestId then state.currentRequestId
      else mem.currentRequestId,
    requestStatus :=
      if state.requestStatus ≠ "" then state.requestStatus else mem.requestStatus,
    requestType :=
      if truthyOptStr state.requestType then state.requestType else mem.requestType,
    customNote :=
      if truthyOptStr state.customNote then state.customNote else mem.customNote,
    timestamp := if truthyOptInt state.timestamp then state.timestamp else mem.timestamp }

/-- _loadState (rate-limit.service.ts lines 210-239) at wall-clock time
`now` (epoch ms): missing record is a no-op; an expired record (truthy
timestamp and now - timestamp > STATE_EXPIRY_MS) is discarded via
clearRequestState; otherwise the truthy fields are restored. -/
def loadState (now : Int) (st : CustomerStore) : CustomerStore :=
  match st.storage with
  | none => st
  | some state =>
    if truthyOptInt state.timestamp ∧ now - state.timestamp.getD 0 > STATE_EXPIRY_MS then
      clearRequestState st
    else
      { st with mem := hydrate st.mem state }

/-- A persisted record whose timestamp is 0 (a falsy number in JS). -/
def customerRecordT0 : CustomerState :=
  { tableId := some "tbl1", currentRequestId := some "r1",
    requestStatus := "sent", requestType := some "call_waiter",
    customNote := none, timestamp := some 0 }

/-- A well-formed persisted record with a positive timestamp. -/
def customerRecordW : CustomerState :=
  { tableId := some "tbl1", currentRequestId := some "r1",
    requestStatus := "sent", requestType := some "call_waiter",
    customNote := none, timestamp := some 1000000 }

/-- Well-formedness of a nullable string field: absent or non-empty. -/
def optStrOk : Option String → Bool
  | some s => s ≠ ""
  | none => true

/-- C5 counterexample: for the persisted record with timestamp 0 and
now = 1900000 ms, now - timestamp = 1900000 exceeds the 30-minute
window (1800000 ms), yet _loadState does NOT discard the record or
clear storage: the truthiness guard `state.timestamp && ...` skips the
expiry check for timestamp 0, and the record is re-hydrated. -/
theorem C5_counterexample :
    (1900000 : Int) - 0 > STATE_EXPIRY_MS ∧
      (loadState 1900000 ⟨initialCustomerState, some customerRecordT0⟩).storage
        = some customerRecordT0 ∧
      (loadState 1900000 ⟨initialCustomerState, some customerRecordT0⟩).mem.currentRequestId
        = some "r1" := by
  refine ⟨by decide, ?_, ?_⟩ <;> rfl

/-- C5 (amended): for every persisted record whose timestamp is a truthy
(non-zero) number and whose nullable string fields are absent or
non-empty, _loadState at time now discards the record and clears
storage when now - timestamp exceeds the 30-minute window (leaving the
in-memory state at its startup values), and otherwise re-hydrates the
in-memory state to exactly the persisted field values while leaving the
record in storage. -/
theorem C5_restore_expiry (rec : CustomerState) (now t : Int)
    (ht : rec.timestamp = some t) (ht0 : t ≠ 0)
    (h1 : optStrOk rec.tableId = true)
    (h2 : optStrOk rec.currentRequestId = true)
    (h3 : optStrOk rec.requestType = true)
    (h4 : optStrOk rec.customNote = true) :
    (now - t > STATE_EXPIRY_MS →
      (loadState now ⟨initialCustomerState, some rec⟩).storage = none ∧
      (loadState now ⟨initialCustomerState, some rec⟩).mem = initialCustomerState) ∧
    (¬ (now - t > STATE_EXPIRY_MS) →
      (loadState now ⟨initialCustomerState, some rec⟩).mem = rec ∧
      (loadState now ⟨initialCustomerState, some rec⟩).storage = some rec) := by
  have htruthy : truthyOptInt rec.timestamp = true := by
    rw [ht]; simpa [truthyOptInt] using ht0
  have hgetD : rec.timestamp.getD 0 = t := by rw [ht]; rfl
  have e1 : (if truthyOptStr rec.tableId then rec.tableId else none) = rec.tableId := by
    cases hta : rec.tableId with
    | none => simp [truthyOptStr]
    | some s =>
      rw [hta] at h1
      simp only [optStrOk, decide_eq_true_eq] at h1
      simp [truthyOptStr, h1]
  have e2 : (if truthyOptStr rec.currentRequestId then rec.currentRequestId else none)
      = rec.currentRequestId := by
    cases hcr : rec.currentRequestId with
    | none => simp [truthyOptStr]
    | some s =>
      rw [hcr] at h2
      simp only [optStrOk, decide_eq_true_eq] at h2
      simp [truthyOptStr, h2]
  have e3 : (if rec.requestStatus ≠ "" then rec.requestStatus else "")
      = rec.requestStatus := by
    by_cases hrs : rec.requestStatus = "" <;> simp [hrs]
  have e4 : (if truthyOptStr rec.requestType then rec.requestType else none)
      = rec.requestType := by
    cases hrt : rec.requestType with
    | none => simp [truthyOptStr]
    | some s =>
      rw [hrt] at h3
      simp only [optStrOk, decide_eq_true_eq] at h3
      simp [truthyOptStr, h3]
  have e5 : (if truthyOptStr rec.customNote then rec.customNote else none)
      = rec.customNote := by
    cases hcn : rec.customNote with
    | none => simp [truthyOptStr]
    | some s =>
      rw [hcn] at h4
      simp only [optStrOk, decide_eq_true_eq] at h4
      simp [truthyOptStr, h4]
  have e6 : (if truthyOptInt rec.timestamp then rec.timestamp else none)
      = rec.timestamp := by
    rw [ht] at htruthy ⊢
    simp only [htruthy]
    simp
  have hhyd : hydrate initialCustomerState rec = rec := by
    simp only [hydrate, initialCustomerState]
    rw [e1, e2, e3, e4, e5, e6]
  have hbranch : loadState now ⟨initialCustomerState, some rec⟩ =
      if truthyOptInt rec.timestamp ∧ now - rec.timestamp.getD 0 > STATE_EXPIRY_MS then
        clearRequestState ⟨initialCustomerState, some rec⟩
      else ⟨hydrate initialCustomerState rec, some rec⟩ := rfl
  constructor
  · intro hexp
    rw [hbranch, if_pos ⟨htruthy, hgetD ▸ hexp⟩]
    exact ⟨rfl, rfl⟩
  · intro hfresh
    rw [hbranch, if_neg ?_, hhyd]
    · exact ⟨rfl, rfl⟩
    · rintro ⟨-, habs⟩
      exact hfresh (hgetD ▸ habs)

/-- Witness for C5: the retained branch at a record 200000 ms old. -/
theorem C5_witness :
    (loadState 1200000 ⟨initialCustomerState, some customerRecordW⟩).mem
        = customerRecordW ∧
      (loadState 1200000 ⟨initialCustomerState, some customerRecordW⟩).storage
        = some customerRecordW :=
  (C5_restore_expiry customerRecordW 1200000 1000000 rfl (by decide)
    (by decide) (by decide) (by decide) (by decide)).2 (by decide)

/-! ### RateLimitService (rate-limit.service.ts, lines 9-89)

The in-memory `Map<string, RateLimitEntry>` becomes an association
list; `Date.now()` becomes an explicit `now` argument in milliseconds.
In the source the entry object is mutated in place after being put in
the map, so the map always holds the incremented entry; the embedding
stores the final entry explicitly. -/

/-- RateLimitEntry (rate-limit.service.ts lines 9-12). -/
structure RateLimitEntry where
  count : Nat
  resetTime : Int
  deriving DecidableEq, Repr

/-- Map.set on the association list: replace the entry for the key when
present, otherwise append it. -/
def setEntry (k : String) (v : RateLimitEntry) :
    List (String × RateLimitEntry) → List (String × RateLimitEntry)
  | [] => [(k, v)]
  | (k2, v2) :: rest =>
    if k2 = k then (k, v) :: rest else (k2, v2) :: setEntry k v rest

/-- checkRateLimit (rate-limit.service.ts lines 38-89) at time `now`:
when the entry is missing or its window has expired (`now > resetTime`)
a fresh entry `{count: 0, resetTime: now + windowMs}` is created; the
count is then incremented; the call is rejected exactly when the new
count exceeds the limit. Returns the admission verdict and the updated
map. -/
def checkRateLimit (endpoint : String) (limit : Nat) (windowMs now : Int)
    (rateLimits : List (String × RateLimitEntry)) :
    Bool × List (String × RateLimitEntry) :=
  let entry0 :=
    match rateLimits.lookup endpoint with
    | some e => if now > e.resetTime then RateLimitEntry.mk 0 (now + windowMs) else e
    | none => RateLimitEntry.mk 0 (now + windowMs)
  let entry := RateLimitEntry.mk (entry0.count + 1) entry0.resetTime
  (decide (entry.count ≤ limit), setEntry endpoint entry rateLimits)

/-- A run of admissions for one endpoint at the given call times,
threading the map through the calls; returns the verdict list. -/
def admitSeq (endpoint : String) (limit : Nat) (windowMs : Int) (times : List Int)
    (rateLimits : List (String × RateLimitEntry)) :
    List Bool × List (String × RateLimitEntry) :=
  match times with
  | [] => ([], rateLimits)
  | t :: rest =>
    let r := checkRateLimit endpoint limit windowMs t rateLimits
    let rr := admitSeq endpoint limit windowMs rest r.2
    (r.1 :: rr.1, rr.2)

theorem checkRateLimit_fresh (endpoint : String) (limit : Nat) (windowMs now : Int)
    (rateLimits : List (String × RateLimitEntry))
    (h : rateLimits.lookup endpoint = none) :
    checkRateLimit endpoint limit windowMs now rateLimits =
      (decide (1 ≤ limit), setEntry endpoint ⟨1, now + windowMs⟩ rateLimits) := by
  unfold checkRateLimit
  rw [h]

theorem checkRateLimit_within (endpoint : String) (limit : Nat) (windowMs now : Int)
    (rateLimits : List (String × RateLimitEntry)) (e : RateLimitEntry)
    (h : rateLimits.lookup endpoint = some e) (hw : ¬ now > e.resetTime) :
    checkRateLimit endpoint limit windowMs now rateLimits =
      (decide (e.count + 1 ≤ limit), setEntry endpoint ⟨e.count + 1, e.resetTime⟩ rateLimits) := by
  unfold checkRateLimit
  rw [h]
  simp only [if_neg hw]

theorem checkRateLimit_expired (endpoint : String) (limit : Nat) (windowMs now : Int)
    (rateLimits : List (String × RateLimitEntry)) (e : RateLimitEntry)
    (h : rateLimits.lookup endpoint = some e) (hw : now > e.resetTime) :
    checkRateLimit endpoint limit windowMs now rateLimits =
      (decide (1 ≤ limit), setEntry endpoint ⟨1, now + windowMs⟩ rateLimits) := by
  unfold checkRateLimit
  rw [h]
  simp only [if_pos hw]

theorem lookup_singleton_self (k : String) (e : RateLimitEntry) :
    List.lookup k [(k, e)] = some e := by
  simp [List.lookup]

theorem setEntry_singleton (k : String) (v e : RateLimitEntry) :
    setEntry k v [(k, e)] = [(k, v)] := by
  simp [setEntry]

/-- C8: for a fresh key, four admission checks with limit 3 and a 1000 ms
window, all within the first call's window, return true, true, true,
false; a fifth call strictly after the window has elapsed resets the
counter, opens a new window, and returns true. -/
theorem C8_rate_window (k : String) (t0 t1 t2 t3 t4 : Int)
    (h1 : t1 ≤ t0 + 1000) (h2 : t2 ≤ t0 + 1000) (h3 : t3 ≤ t0 + 1000)
    (h4 : t4 > t0 + 1000) :
    (admitSeq k 3 1000 [t0, t1, t2, t3, t4] []).1
      = [true, true, true, false, true] ∧
    (admitSeq k 3 1000 [t0, t1, t2, t3, t4] []).2
      = [(k, ⟨1, t4 + 1000⟩)] := by
  have s1 := checkRateLimit_fresh k 3 1000 t0 [] (by simp [List.lookup])
  have s2 := checkRateLimit_within k 3 1000 t1 [(k, ⟨1, t0 + 1000⟩)] ⟨1, t0 + 1000⟩
    (lookup_singleton_self k _) (by simpa using h1)
  have s3 := checkRateLimit_within k 3 1000 t2 [(k, ⟨2, t0 + 1000⟩)] ⟨2, t0 + 1000⟩
    (lookup_singleton_self k _) (by simpa using h2)
  have s4 := checkRateLimit_within k 3 1000 t3 [(k, ⟨3, t0 + 1000⟩)] ⟨3, t0 + 1000⟩
    (lookup_singleton_self k _) (by simpa using h3)
  have s5 := checkRateLimit_expired k 3 1000 t4 [(k, ⟨4, t0 + 1000⟩)] ⟨4, t0 + 1000⟩
    (lookup_singleton_self k _) h4
  simp [setEntry] at s1 s2 s3 s4 s5
  simp [admitSeq, s1, s2, s3, s4, s5]

/-- Witness for C8 at concrete call times 0, 100, 200, 300, 1500 ms. -/
theorem C8_witness :
    (admitSeq "/api/requests" 3 1000 [0, 100, 200, 300, 1500] []).1
      = [true, true, true, false, true] :=
  (C8_rate_window "/api/requests" 0 100 200 300 1500
    (by decide) (by decide) (by decide) (by decide)).1

/-! ### UrlUtilsService.extractTenantFromUrl (url-utils.service.ts, lines 14-53)

Hostnames are embedded as `List Char` so that the character-level
operations of the source (`split(".")`, `includes("localhost")`, the
IPv4 regex) are executable by structural recursion. The query string is
abstracted to the value of `urlParams.get("tenant")`: `none` when the
parameter is absent. -/

/-- JS `hostname.split(".")`: `""` yields `[""]`, separators at the ends
yield empty components. -/
def splitOnDot : List Char → List (List Char)
  | [] => [[]]
  | c :: cs =>
    let rest := splitOnDot cs
    if c = '.' then [] :: rest
    else (c :: rest.headD []) :: rest.tail

/-- Whether the second list begins with the first. -/
def seqStartsWith : List Char → List Char → Bool
  | [], _ => true
  | _ :: _, [] => false
  | p :: ps, c :: cs => p = c && seqStartsWith ps cs

/-- JS `s.includes(pat)`: `pat` occurs contiguously somewhere in `s`. -/
def containsSeq (pat : List Char) : List Char → Bool
  | [] => seqStartsWith pat []
  | c :: cs => seqStartsWith pat (c :: cs) || containsSeq pat cs

/-- One group of the IPv4 pattern: at least one character, all digits. -/
def isIpGroup (g : List Char) : Bool :=
  !g.isEmpty && g.all Char.isDigit

/-- The test of the regex `^\d+\.\d+\.\d+\.\d+$` (url-utils.service.ts
line 42): exactly four dot-separated all-digit groups. -/
def isIpAddress (hostname : List Char) : Bool :=
  (splitOnDot hostname).length == 4 && (splitOnDot hostname).all isIpGroup

/-- The literal "www". -/
def wwwChars : List Char := "www".toList

/-- The literal "localhost". -/
def localhostChars : List Char := "localhost".toList

/-- Error thrown on a localhost-style host with no subdomain
(url-utils.service.ts lines 30-32). -/
def tenantRequiredLocalhostMsg : String :=
  "Tenant subdomain is required. Please access via subdomain (e.g., a.localhost:4200) or query parameter (e.g., ?tenant=a)"

/-- Error thrown on an IP-address host (url-utils.service.ts lines 44-46). -/
def tenantRequiredIpMsg : String :=
  "Tenant subdomain is required. When accessing via IP address, please use query parameter: ?tenant=restaurant-a"

/-- Error thrown when no tenant is resolvable (url-utils.service.ts
lines 50-52). -/
def tenantRequiredMsg : String :=
  "Tenant subdomain is required. Please access via subdomain (e.g., restaurant.example.com) or query parameter (e.g., ?tenant=restaurant-a)"

/-- The hostname part of extractTenantFromUrl (url-utils.service.ts
lines 24-52), reached when there is no truthy query override. -/
def extractTenantFromHostname (hostname : List Char) : Except String (List Char) :=
  if containsSeq localhostChars hostname then
    if (splitOnDot hostname).length ≥ 2 ∧
        (splitOnDot hostname).headD [] ≠ localhostChars ∧
        (splitOnDot hostname).headD [] ≠ wwwChars then
      .ok ((splitOnDot hostname).headD [])
    else
      .error tenantRequiredLocalhostMsg
  else
    if (splitOnDot hostname).length > 2 ∧ (splitOnDot hostname).headD [] ≠ wwwChars then
      .ok ((splitOnDot hostname).headD [])
    else if isIpAddress hostname then
      .error tenantRequiredIpMsg
    else
      .error tenantRequiredMsg

/-- UrlUtilsService.extractTenantFromUrl (url-utils.service.ts lines
14-53): a truthy `tenant` query parameter wins; otherwise the hostname
logic runs; every failing case throws (never substitutes a default). -/
def extractTenantFromUrl (hostname : List Char) (tenantParam : Option (List Char)) :
    Except String (List Char) :=
  match tenantParam with
  | some p => if p ≠ [] then .ok p else extractTenantFromHostname hostname
  | none => extractTenantFromHostname hostname

theorem extract_none_ok (h s : List Char)
    (hok : extractTenantFromUrl h none = .ok s) :
    s = (splitOnDot h).headD [] ∧ s ≠ wwwChars ∧
      (containsSeq localhostChars h = true → s ≠ localhostChars) := by
  have hok2 : extractTenantFromHostname h = .ok s := hok
  unfold extractTenantFromHostname at hok2
  by_cases hc : containsSeq localhostChars h = true
  · rw [if_pos hc] at hok2
    by_cases hl : (splitOnDot h).length ≥ 2 ∧
        (splitOnDot h).headD [] ≠ localhostChars ∧ (splitOnDot h).headD [] ≠ wwwChars
    · rw [if_pos hl] at hok2
      cases hok2
      exact ⟨rfl, hl.2.2, fun _ => hl.2.1⟩
    · rw [if_neg hl] at hok2
      cases hok2
  · rw [if_neg hc] at hok2
    by_cases hr : (splitOnDot h).length > 2 ∧ (splitOnDot h).headD [] ≠ wwwChars
    · rw [if_pos hr] at hok2
      cases hok2
      exact ⟨rfl, hr.2, fun habs => absurd habs hc⟩
    · rw [if_neg hr] at hok2
      by_cases hip : isIpAddress h = true
      · rw [if_pos hip] at hok2
        cases hok2
      · rw [if_neg hip] at hok2
        cases hok2

/-- C7: tenant resolution precedence and failure. A truthy query
override always wins (for any hostname); with no override, a resolved
tenant is always exactly the first host label, which is never "www" and
never "localhost"; hosts with no subdomain label (the bare loopback
host, a www host, a two-label host) produce an error rather than any
default value. -/
theorem C7_tenant_resolution :
    (∀ (h p : List Char), p ≠ [] → extractTenantFromUrl h (some p) = .ok p) ∧
      extractTenantFromUrl "y.example.com".toList (some "x".toList) = .ok "x".toList ∧
      extractTenantFromUrl "y.example.com".toList none = .ok "y".toList ∧
      extractTenantFromUrl "a.localhost".toList none = .ok "a".toList ∧
      (∀ (h s : List Char), extractTenantFromUrl h none = .ok s →
        s = (splitOnDot h).headD [] ∧ s ≠ wwwChars ∧
          (containsSeq localhostChars h = true → s ≠ localhostChars)) ∧
      (extractTenantFromUrl "localhost".toList none).isOk = false ∧
      (extractTenantFromUrl "www.example.com".toList none).isOk = false ∧
      (extractTenantFromUrl "example.com".toList none).isOk = false := by
  refine ⟨?_, ?_, ?_, ?_, extract_none_ok, ?_, ?_, ?_⟩
  · intro h p hp
    have hred : extractTenantFromUrl h (some p)
        = if p ≠ [] then .ok p else extractTenantFromHostname h := rfl
    rw [hred, if_pos hp]
  · rfl
  · rfl
  · rfl
  · rfl
  · rfl
  · rfl

/-- Witness for C7: the query override beats the subdomain at a concrete
hostname. -/
theorem C7_witness :
    extractTenantFromUrl "z.example.com".toList (some "x".toList) = .ok "x".toList :=
  C7_tenant_resolution.1 "z.example.com".toList "x".toList (by decide)

/-! ### Single-flight refresh (auth.interceptor.ts lines 89-119,
socket.service.ts lines 101-161, part_004 lines 58-73)

The runtime is a single-threaded event loop, so the interleaving of the
relevant steps is a sequence of atomic events:

* `http401`: an HTTP request hit a 401 and the interceptor entered
  `_handle401Error`. If `_isRefreshing` is false it sets the flag,
  resets `_refreshTokenSubject` to null and subscribes
  `authService.refreshToken()`, issuing one network refresh POST
  (lines 90-94); otherwise the caller waits on the subject
  (`filter(token !== null), take(1)`, lines 112-117).
* `socketAuthError`: a socket `connect_error`/`error`/`auth_error`
  handler calls `authService.refreshToken().subscribe(...)` directly
  (socket.service.ts lines 107, 126, 147). `AuthService.refreshToken`
  (part_004 lines 58-73) has no in-flight guard: every subscription
  issues a fresh network refresh POST.
* `refreshSuccess tok`: the pending interceptor refresh resolves;
  the flag is cleared, the subject emits the new access token and every
  waiting caller (and the initiating caller) resolves with it
  (lines 95-104). -/

/-- The coordination state of the interceptor plus a count of network
refresh calls and the tokens callers resolved with. -/
structure RefreshState where
  isRefreshing : Bool
  subjectVal : Option String
  networkCalls : Nat
  waiting : Nat
  resolvedWith : List String
  deriving DecidableEq, Repr

/-- An atomic event of the refresh interleaving. -/
inductive RefreshEvent where
  | http401
  | socketAuthError
  | refreshSuccess (token : String)
  deriving DecidableEq, Repr

/-- Startup state: `_isRefreshing = false`, subject holds null, no
network call made, nobody waiting. -/
def initRefreshState : RefreshState :=
  ⟨false, none, 0, 0, []⟩

/-- One event step, as described in the section comment. -/
def stepRefresh (s : RefreshState) : RefreshEvent → RefreshState
  | .http401 =>
    if s.isRefreshing then
      { s with waiting := s.waiting + 1 }
    else
      { s with
        isRefreshing := true
        subjectVal := none
        networkCalls := s.networkCalls + 1
        waiting := s.waiting + 1 }
  | .socketAuthError =>
    { s with networkCalls := s.networkCalls + 1 }
  | .refreshSuccess tok =>
    { s with
      isRefreshing := false
      subjectVal := some tok
      waiting := 0
      resolvedWith := s.resolvedWith ++ List.replicate s.waiting tok }

/-- Run an event sequence from the startup state. -/
def runRefresh (events : List RefreshEvent) : RefreshState :=
  events.foldl stepRefresh initRefreshState

theorem foldl_http401_refreshing (k : Nat) (s : RefreshState)
    (h : s.isRefreshing = true) :
    (List.replicate k RefreshEvent.http401).foldl stepRefresh s
      = { s with waiting := s.waiting + k } := by
  induction k generalizing s with
  | zero => rfl
  | succ n ih =>
    rw [List.replicate_succ, List.foldl_cons]
    have hstep : stepRefresh s .http401 = { s with waiting := s.waiting + 1 } := by
      unfold stepRefresh
      rw [if_pos h]
    rw [hstep, ih { s with waiting := s.waiting + 1 } h]
    simp only [RefreshState.mk.injEq, true_and, and_true]
    omega

/-- C1 counterexample: starting with no refresh in flight, an HTTP 401
and a socket auth error arriving concurrently produce TWO network
refresh calls, because the socket handlers call
AuthService.refreshToken() directly, bypassing the interceptor's
single-flight gate. The claim says exactly one call occurs. -/
theorem C1_counterexample :
    initRefreshState.isRefreshing = false ∧
      (runRefresh [.http401, .socketAuthError]).networkCalls = 2 :=
  ⟨rfl, rfl⟩

/-- C1 (amended): for N ≥ 2 concurrent HTTP callers that each hit a 401
through the interceptor while no refresh is in flight, exactly one
network refresh call occurs, and when it resolves every caller resolves
with the token of that one refresh. Refresh requests from the realtime
channel are NOT covered: the socket handlers invoke
AuthService.refreshToken() directly and each such invocation issues its
own network call. -/
theorem C1_single_flight_http (n : Nat) (tok : String) (hn : 2 ≤ n) :
    (runRefresh (List.replicate n .http401 ++ [.refreshSuccess tok])).networkCalls = 1 ∧
      (runRefresh (List.replicate n .http401 ++ [.refreshSuccess tok])).resolvedWith
        = List.replicate n tok := by
  obtain ⟨m, rfl⟩ : ∃ m, n = m + 1 := ⟨n - 1, by omega⟩
  unfold runRefresh
  rw [List.foldl_append]
  have h1 : stepRefresh initRefreshState .http401 = ⟨true, none, 1, 1, []⟩ := rfl
  have hrun : List.foldl stepRefresh initRefreshState
      (List.replicate (m + 1) RefreshEvent.http401) = ⟨true, none, 1, 1 + m, []⟩ := by
    rw [List.replicate_succ, List.foldl_cons, h1,
      foldl_http401_refreshing m ⟨true, none, 1, 1, []⟩ rfl]
  rw [hrun]
  refine ⟨rfl, ?_⟩
  have h2 : (List.foldl stepRefresh
      (⟨true, none, 1, 1 + m, []⟩ : RefreshState)
      [RefreshEvent.refreshSuccess tok]).resolvedWith
      = List.replicate (1 + m) tok := rfl
  rw [h2, Nat.add_comm]

/-- Witness for C1 at two concurrent HTTP 401 callers. -/
theorem C1_witness :
    (runRefresh (List.replicate 2 .http401 ++ [.refreshSuccess "tok2"])).networkCalls = 1 ∧
      (runRefresh (List.replicate 2 .http401 ++ [.refreshSuccess "tok2"])).resolvedWith
        = List.replicate 2 "tok2" :=
  C1_single_flight_http 2 "tok2" (by omega)

/-! ### Customer view teardown (customer.component.ts lines 233-238)

`ngOnDestroy` runs `this._sub.unsubscribe()` (drops the realtime event
subscriptions), `this._stopTimer()` (clears the elapsed-time interval)
and `this._socketService.disconnect()`, which calls
`this._socket.disconnect()` on the shared socket (socket.service.ts
lines 283-287). -/

/-- The resources touched by the customer view teardown. -/
structure CustomerViewState where
  subscriptionsActive : Bool
  timerActive : Bool
  socketConnected : Bool
  deriving DecidableEq, Repr

/-- `_sub.unsubscribe()`. -/
def unsubscribeAll (v : CustomerViewState) : CustomerViewState :=
  { v with subscriptionsActive := false }

/-- `_stopTimer()`: clears `_timerInterval`. -/
def stopTimer (v : CustomerViewState) : CustomerViewState :=
  { v with timerActive := false }

/-- SocketService.disconnect (socket.service.ts lines 283-287): the one
shared socket is disconnected. -/
def socketDisconnect (v : CustomerViewState) : CustomerViewState :=
  { v with socketConnected := false }

/-- CustomerComponent.ngOnDestroy (customer.component.ts lines 233-238),
in source order. -/
def customerNgOnDestroy (v : CustomerViewState) : CustomerViewState :=
  socketDisconnect (stopTimer (unsubscribeAll v))

/-- C6 counterexample: destroying the customer view while the shared
socket is connected leaves the socket DISCONNECTED — ngOnDestroy calls
SocketService.disconnect() — contradicting the claim that the shared
realtime connection is left connected. -/
theorem C6_counterexample :
    (customerNgOnDestroy ⟨true, true, true⟩).socketConnected = false :=
  rfl

/-- C6 (amended): when the customer view is destroyed, its realtime
event subscriptions and its local interval timer are stopped, and the
shared realtime connection is ALSO closed: ngOnDestroy explicitly calls
SocketService.disconnect() on the shared socket. -/
theorem C6_view_teardown (v : CustomerViewState) :
    customerNgOnDestroy v = ⟨false, false, false⟩ :=
  rfl

/-! ### SocketService.on teardown (socket.service.ts lines 271-281)

The socket.io listener registry of one physical socket is an ordered
list of (event name, handler) pairs. `SocketService.on(eventName)`
registers one handler per subscription; its Observable teardown runs
`this._socket.off(eventName)` WITHOUT passing the handler, which in
socket.io removes every listener registered for that event name. -/

/-- `_socket.on(eventName, handler)`: append the listener. Handlers are
identified by a numeric tag. -/
def socketOnListeners (eventName : String) (handler : Nat)
    (listeners : List (String × Nat)) : List (String × Nat) :=
  listeners ++ [(eventName, handler)]

/-- `_socket.off(eventName)` with no handler argument: remove every
listener for that event name (the teardown at socket.service.ts lines
277-279). -/
def socketOff (eventName : String) (listeners : List (String × Nat)) :
    List (String × Nat) :=
  listeners.filter fun l => l.1 ≠ eventName

/-- The handlers invoked when an event with this name arrives. -/
def deliver (eventName : String) (listeners : List (String × Nat)) : List Nat :=
  (listeners.filter fun l => l.1 = eventName).map (·.2)

theorem deliver_socketOff (e : String) (l : List (String × Nat)) :
    deliver e (socketOff e l) = [] := by
  rw [List.eq_nil_iff_forall_not_mem]
  intro h hmem
  simp only [deliver, socketOff, List.mem_map, List.mem_filter,
    decide_eq_true_eq] at hmem
  obtain ⟨x, ⟨⟨-, hne⟩, heq⟩, -⟩ := hmem
  exact hne heq

/-- C10: after two consumers subscribe to the same event name on the
shared connection, both receive deliveries; tearing down either
subscription runs off(eventName), which removes every listener for that
event name, so delivery stops for both. -/
theorem C10_off_removes_all (listeners : List (String × Nat)) (e : String)
    (h1 h2 : Nat) :
    h1 ∈ deliver e (socketOnListeners e h2 (socketOnListeners e h1 listeners)) ∧
      h2 ∈ deliver e (socketOnListeners e h2 (socketOnListeners e h1 listeners)) ∧
      deliver e (socketOff e (socketOnListeners e h2 (socketOnListeners e h1 listeners)))
        = [] := by
  refine ⟨?_, ?_, deliver_socketOff e _⟩
  · simp only [deliver, socketOnListeners, List.mem_map, List.mem_filter]
    refine ⟨(e, h1), ⟨?_, by simp⟩, rfl⟩
    simp
  · simp only [deliver, socketOnListeners, List.mem_map, List.mem_filter]
    refine ⟨(e, h2), ⟨?_, by simp⟩, rfl⟩
    simp

end Veasyo
